import Mathlib

/-!
Shallow embedding of `src/server_fetcher.py` (banana-server-fetcher).

Modelling conventions:
* Time is a natural number of seconds.  Every `time.time()` read the Python
  code performs is passed in explicitly as a `now` argument (two reads inside
  one function body are modelled as the same instant).
* Network responses are inputs: a `FetchOutcome` value stands for what the
  one HTTP request of `fetch_from_roblox` would have returned, and a list of
  outcomes is the oracle consumed by the refill loop, one per request issued.
* Python dictionaries keyed by `place_id_str` become association lists keyed
  by `Nat` (the string conversion of an integer key is injective, so this is
  faithful).
* Cursors are opaque upstream tokens; they are modelled as `Option Nat`
  (`None` in Python becomes `none`).
-/

/-- `CACHE_EXPIRY_MINUTES` (source line 23, default value 30). -/
def CACHE_EXPIRY_MINUTES : Nat := 30

/-- `REQUEST_COOLDOWN` (source line 24, default value 2): minimum spacing in
seconds between upstream requests. -/
def REQUEST_COOLDOWN : Nat := 2

/-- `MIN_CACHE_SIZE` (source line 27): auto-fetch more when cache drops below
this. -/
def MIN_CACHE_SIZE : Nat := 250

/-- `TARGET_CACHE_SIZE` (source line 28): try to maintain this many servers. -/
def TARGET_CACHE_SIZE : Nat := 500

/-- A server record as the code uses it: the code itself only ever reads the
`"id"` field (dedup in `update_cache`); the occupancy fields `playing` and
`maxPlayers` are carried along because the specification's fullness heuristic
speaks about them. -/
structure ServerRecord where
  id : Nat
  playing : Nat
  maxPlayers : Nat
deriving DecidableEq

/-- The per-place entry of `cache["servers"]` (source lines 114-119):
`{"servers": [...], "cursor": ..., "timestamp": ...}`. -/
structure PlaceCache where
  servers : List ServerRecord
  cursor : Option Nat
  timestamp : Nat
deriving DecidableEq

/-- The global `cache` dictionary (source lines 31-34):
`{"servers": {...}, "last_request": 0}`. -/
structure Cache where
  servers : List (Nat × PlaceCache)
  last_request : Nat
deriving DecidableEq

/-- Dictionary lookup `cache["servers"].get(place_id_str)`. -/
def findPlace : List (Nat × PlaceCache) → Nat → Option PlaceCache
  | [], _ => none
  | (k, v) :: rest, pid => if k = pid then some v else findPlace rest pid

/-- Dictionary update `cache["servers"][place_id_str] = pc`. -/
def setPlace : List (Nat × PlaceCache) → Nat → PlaceCache → List (Nat × PlaceCache)
  | [], pid, pc => [(pid, pc)]
  | (k, v) :: rest, pid, pc =>
      if k = pid then (pid, pc) :: rest else (k, v) :: setPlace rest pid pc

/-- The members of the pool for a key (empty when the key is absent). -/
def poolMembers (c : Cache) (place_id : Nat) : List ServerRecord :=
  ((findPlace c.servers place_id).map (fun pc => pc.servers)).getD []

/-- `len(cache["servers"].get(place_id_str, {}).get("servers", []))`
(source lines 163 and 206). -/
def poolSize (c : Cache) (place_id : Nat) : Nat :=
  (poolMembers c place_id).length

/-- The `timestamp` field of the pool for a key (0 when absent, matching
`place_cache.get("timestamp", 0)`). -/
def poolTimestamp (c : Cache) (place_id : Nat) : Nat :=
  ((findPlace c.servers place_id).map (fun pc => pc.timestamp)).getD 0

/-- The place entry for a key, or the freshly initialized entry
`{"servers": [], "cursor": None, "timestamp": now}` the code creates when the
key is absent (source lines 114-119 and 247-252). -/
def poolOrDefault (c : Cache) (place_id : Nat) (now : Nat) : PlaceCache :=
  (findPlace c.servers place_id).getD
    { servers := [], cursor := none, timestamp := now }

/-- `is_cache_valid` (source lines 58-67): the cached entry for `place_id`
exists and its age in minutes is below `CACHE_EXPIRY_MINUTES`.  Python
computes the age with float division; with `now ≥ timestamp` the natural
floor division agrees with the float comparison (`(now-ts)/60 < 30` iff
`now-ts < 1800`), and with `now < timestamp` both sides are valid. -/
def is_cache_valid (c : Cache) (place_id : Nat) (now : Nat) : Bool :=
  match findPlace c.servers place_id with
  | none => false
  | some pc => decide ((now - pc.timestamp) / 60 < CACHE_EXPIRY_MINUTES)

/-- The dedup filter of `update_cache` (source lines 124-125):
`new_servers = [s for s in servers if s["id"] not in existing_ids]` where
`existing_ids = {s["id"] for s in place_cache["servers"]}`. -/
def new_servers (members : List ServerRecord) (servers : List ServerRecord) :
    List ServerRecord :=
  servers.filter (fun s => !decide (s.id ∈ members.map ServerRecord.id))

/-- `update_cache` (source lines 108-138).  Creates the place entry when
absent, appends the deduplicated batch, stores the new cursor and timestamp,
truncates to the first `TARGET_CACHE_SIZE` entries when over the bound, and
returns the new cache together with `len(new_servers)`. -/
def update_cache (c : Cache) (place_id : Nat) (servers : List ServerRecord)
    (cursor : Option Nat) (now : Nat) : Cache × Nat :=
  let place_cache := poolOrDefault c place_id now
  let ns := new_servers place_cache.servers servers
  let extended := place_cache.servers ++ ns
  let limited :=
    if TARGET_CACHE_SIZE < extended.length then extended.take TARGET_CACHE_SIZE
    else extended
  ({ c with
      servers := setPlace c.servers place_id
        { servers := limited, cursor := cursor, timestamp := now } },
   ns.length)

/-- What the single HTTP request inside `fetch_from_roblox` would return:
a 200 page of records with an optional next cursor, a 429, another non-2xx
status, or a transport exception (`requests.RequestException`). -/
inductive FetchOutcome where
  | success (records : List ServerRecord) (nextCursor : Option Nat)
  | rateLimited
  | httpError (code : Nat)
  | requestException
deriving DecidableEq

/-- The value `fetch_from_roblox` returns (source lines 93-106): the parsed
page on 200, `{"error": "rate_limited", "retry_after": 60}` on 429,
`{"error": "http_error_N"}` on other statuses, `{"error": str(e)}` on a
transport exception. -/
inductive FetchResult where
  | ok (records : List ServerRecord) (nextCursor : Option Nat)
  | rate_limited (retry_after : Nat)
  | http_error (code : Nat)
  | request_error
deriving DecidableEq

/-- The time at which the request of `fetch_from_roblox` is issued (source
lines 75-79): if less than `REQUEST_COOLDOWN` elapsed since `last_request`,
sleep the remainder, so the request goes out at `last_request +
REQUEST_COOLDOWN`; otherwise it goes out at `now`.  (Natural subtraction
matches the Python arithmetic on both sides of `now ≥ last_request`.) -/
def issue_time (last_request now : Nat) : Nat :=
  if now - last_request < REQUEST_COOLDOWN then last_request + REQUEST_COOLDOWN
  else now

/-- Result of one `fetch_from_roblox` call: the cache after the call (only
`last_request` can change), the returned value, and the instant the HTTP
request was issued. -/
structure FetchOut where
  cache : Cache
  result : FetchResult
  issueTime : Nat
deriving DecidableEq

/-- `fetch_from_roblox` (source lines 69-106).  Sleeps out the spacing,
issues one request (`outcome` is what the network returns, `respDelay` how
long the round trip takes), then sets `cache["last_request"]` to the time the
response arrived (source line 91 - executed on every received response,
including 429 and other error statuses, but not when the request raises). -/
def fetch_from_roblox (c : Cache) (place_id : Nat) (cursor : Option Nat)
    (exclude_full : Bool) (now : Nat) (outcome : FetchOutcome)
    (respDelay : Nat) : FetchOut :=
  let t := issue_time c.last_request now
  match outcome with
  | .success recs cur =>
      { cache := { c with last_request := t + respDelay },
        result := .ok recs cur, issueTime := t }
  | .rateLimited =>
      { cache := { c with last_request := t + respDelay },
        result := .rate_limited 60, issueTime := t }
  | .httpError code =>
      { cache := { c with last_request := t + respDelay },
        result := .http_error code, issueTime := t }
  | .requestException =>
      { cache := c, result := .request_error, issueTime := t }

/-- `max_attempts` of the refill loop (source line 159). -/
def max_attempts : Nat := 5

/-- The `while attempts < max_attempts` loop of `background_refill_cache`
(source lines 161-204), with `fuel = max_attempts - attempts`.  Returns the
cache after the run together with the number of upstream fetches performed.
Each continuing path of the Python loop increments `attempts` exactly once,
so fuel recursion is exact.  The oracle list supplies one `FetchOutcome` per
issued request (an exhausted oracle behaves as a transport error, which the
loop treats as a terminating fetch failure). -/
def refill_loop (place_id : Nat) (exclude_full : Bool) (now : Nat) :
    Nat → Cache → Option Nat → List FetchOutcome → Cache × Nat
  | 0, c, _, _ => (c, 0)
  | fuel + 1, c, cursor, outcomes =>
    if TARGET_CACHE_SIZE ≤ poolSize c place_id then (c, 0)
    else
      let outcome := outcomes.headD .requestException
      let f := fetch_from_roblox c place_id cursor exclude_full now outcome 0
      match f.result with
      | .ok servers next_cursor =>
        if servers.isEmpty then (f.cache, 1)
        else
          let u := update_cache f.cache place_id servers next_cursor now
          if u.2 = 0 then
            match next_cursor with
            | some _ =>
                let r := refill_loop place_id exclude_full now fuel u.1
                  next_cursor outcomes.tail
                (r.1, r.2 + 1)
            | none => (u.1, 1)
          else
            match next_cursor with
            | none => (u.1, 1)
            | some _ =>
                let r := refill_loop place_id exclude_full now fuel u.1
                  next_cursor outcomes.tail
                (r.1, r.2 + 1)
      | _ => (f.cache, 1)

/-- `fetch_in_progress.get(place_id_str, False)` (source line 145). -/
def findFlag : List (Nat × Bool) → Nat → Bool
  | [], _ => false
  | (k, v) :: rest, pid => if k = pid then v else findFlag rest pid

/-- `fetch_in_progress[place_id_str] = b` (source lines 149, 210). -/
def setFlag : List (Nat × Bool) → Nat → Bool → List (Nat × Bool)
  | [], pid, b => [(pid, b)]
  | (k, v) :: rest, pid, b =>
      if k = pid then (pid, b) :: rest else (k, v) :: setFlag rest pid b

/-- The process state touched by a background refill: the global `cache` and
the `fetch_in_progress` flag dictionary. -/
structure GlobalState where
  cache : Cache
  fetch_in_progress : List (Nat × Bool)
deriving DecidableEq

/-- `background_refill_cache` (source lines 140-210).  When the key's flag is
already set it returns immediately without touching anything; otherwise it
sets the flag, reads the stored cursor, runs the fetch loop, and - via the
`try/finally` - clears the flag on every exit path of the run. -/
def background_refill_cache (g : GlobalState) (place_id : Nat)
    (exclude_full : Bool) (now : Nat) (outcomes : List FetchOutcome) :
    GlobalState :=
  if findFlag g.fetch_in_progress place_id then g
  else
    let flags := setFlag g.fetch_in_progress place_id true
    let cursor := (findPlace g.cache.servers place_id).bind (fun pc => pc.cursor)
    let r := refill_loop place_id exclude_full now max_attempts g.cache cursor
      outcomes
    { cache := r.1, fetch_in_progress := setFlag flags place_id false }

/-- The JSON body `get_servers` answers with: the cache branch (source lines
274-281, `"source": "cache"`), the upstream branch (source lines 306-313,
`"source": "roblox"`), or the error branch (source lines 289-293, HTTP status
429 for `rate_limited` and 500 otherwise). -/
inductive GetResult where
  | cacheHit (servers : List ServerRecord) (count remaining timestamp : Nat)
  | fromUpstream (servers : List ServerRecord) (count : Nat)
      (nextCursor : Option Nat)
  | fetchFailed (err : FetchResult) (status : Nat)
deriving DecidableEq

/-- Result of one `get_servers` request: the response, the cache afterwards,
and whether a background-refill thread was started (either trigger site). -/
structure GetOut where
  result : GetResult
  cache : Cache
  refillTriggered : Bool
deriving DecidableEq

/-- `get_servers` (source lines 228-313), after the query-string parsing.
Creates the place entry when absent; starts a background refill when the pool
is small and valid; serves and drains the front of a nonempty, valid pool
unless `force_refresh`; otherwise performs one synchronous
`fetch_from_roblox` + `update_cache` cycle and answers with the first `count`
records of the raw fetched page, starting a refill when the pool is still
small. -/
def get_servers (c0 : Cache) (place_id : Nat) (exclude_full : Bool)
    (force_refresh : Bool) (count : Nat) (now : Nat) (outcome : FetchOutcome)
    (respDelay : Nat) : GetOut :=
  let c :=
    if (findPlace c0.servers place_id).isNone then
      { c0 with
          servers := setPlace c0.servers place_id
            { servers := [], cursor := none, timestamp := now } }
    else c0
  let place_cache := poolOrDefault c place_id now
  let current_size := place_cache.servers.length
  let refill1 := decide (current_size < MIN_CACHE_SIZE) &&
    is_cache_valid c place_id now
  if decide (0 < current_size) && is_cache_valid c place_id now &&
      !force_refresh then
    let served := place_cache.servers.take count
    let rest := place_cache.servers.drop count
    let c' := { c with
      servers := setPlace c.servers place_id { place_cache with servers := rest } }
    { result := .cacheHit served served.length rest.length place_cache.timestamp,
      cache := c', refillTriggered := refill1 }
  else
    let f := fetch_from_roblox c place_id place_cache.cursor exclude_full now
      outcome respDelay
    match f.result with
    | .ok servers next_cursor =>
        let u := update_cache f.cache place_id servers next_cursor now
        let return_servers := servers.take count
        let refill2 := decide (poolSize u.1 place_id < MIN_CACHE_SIZE)
        { result := .fromUpstream return_servers return_servers.length next_cursor,
          cache := u.1, refillTriggered := refill1 || refill2 }
    | .rate_limited ra =>
        { result := .fetchFailed (.rate_limited ra) 429, cache := f.cache,
          refillTriggered := refill1 }
    | .http_error code =>
        { result := .fetchFailed (.http_error code) 500, cache := f.cache,
          refillTriggered := refill1 }
    | .request_error =>
        { result := .fetchFailed .request_error 500, cache := f.cache,
          refillTriggered := refill1 }

/-- Modelled from the spec, section 4.3 step 2 (no such classification exists
anywhere in the source): a record is full iff `playing ≥ 7` when
`maxPlayers ≤ 10`, and iff `playing / maxPlayers ≥ 0.90` otherwise (stated
over naturals as `10 * playing ≥ 9 * maxPlayers`). -/
def spec_is_full (r : ServerRecord) : Bool :=
  if r.maxPlayers ≤ 10 then decide (7 ≤ r.playing)
  else decide (9 * r.maxPlayers ≤ 10 * r.playing)

/-- Modelled from the spec, sections 4.3-4.4: a member list in which every
joinable record precedes every full record (once a full record appears, all
later records are full). -/
def spec_joinable_before_full : List ServerRecord → Bool
  | [] => true
  | r :: rest =>
      if spec_is_full r then rest.all spec_is_full
      else spec_joinable_before_full rest

/-- A pool of `TARGET_CACHE_SIZE` distinct records (ids 0 to 499), a concrete
full pool for witnesses and counterexamples. -/
def bigPool : List ServerRecord :=
  (List.range TARGET_CACHE_SIZE).map
    (fun i => { id := i, playing := 0, maxPlayers := 8 })

/-- A cache whose pool for key 7 is `bigPool`, fresh at time 0. -/
def bigCache : Cache :=
  { servers := [(7, { servers := bigPool, cursor := none, timestamp := 0 })],
    last_request := 0 }

/-- 300 distinct records, the pre-loaded pool of end-to-end scenario 2. -/
def pool300 : List ServerRecord :=
  (List.range 300).map (fun i => { id := i, playing := 0, maxPlayers := 8 })

/-- A cache holding `pool300` for key 123, fresh at time 1000. -/
def cache300 : Cache :=
  { servers := [(123, { servers := pool300, cursor := none, timestamp := 1000 })],
    last_request := 0 }

/-- 249 distinct records, one below `MIN_CACHE_SIZE`. -/
def pool249 : List ServerRecord :=
  (List.range 249).map (fun i => { id := i, playing := 0, maxPlayers := 8 })

/-- A cache holding `pool249` for key 123, fresh at time 1000. -/
def cache249 : Cache :=
  { servers := [(123, { servers := pool249, cursor := none, timestamp := 1000 })],
    last_request := 0 }

/-- Concrete record with id 1, used in scenario theorems. -/
def rec1 : ServerRecord := { id := 1, playing := 0, maxPlayers := 8 }

/-- Concrete record with id 2. -/
def rec2 : ServerRecord := { id := 2, playing := 0, maxPlayers := 8 }

/-- Concrete record with id 3. -/
def rec3 : ServerRecord := { id := 3, playing := 0, maxPlayers := 8 }

/-- A cache whose pool for key 123 is `[rec1]`, fresh at time 1000. -/
def oneRecCache : Cache :=
  { servers := [(123, { servers := [rec1], cursor := none, timestamp := 1000 })],
    last_request := 0 }

/-- A cache whose pool for key 123 is `[rec1, rec2]`, fresh at time 1000. -/
def twoRecCache : Cache :=
  { servers := [(123, { servers := [rec1, rec2], cursor := none, timestamp := 1000 })],
    last_request := 0 }

/-- A cache with a present but empty pool for key 123 (timestamp 0). -/
def emptyPoolCache : Cache :=
  { servers := [(123, { servers := [], cursor := none, timestamp := 0 })],
    last_request := 0 }

/-! ## Helper lemmas -/

theorem findPlace_setPlace_self (m : List (Nat × PlaceCache)) (pid : Nat)
    (pc : PlaceCache) : findPlace (setPlace m pid pc) pid = some pc := by
  induction m with
  | nil => simp [setPlace, findPlace]
  | cons kv rest ih =>
    obtain ⟨k, v⟩ := kv
    by_cases h : k = pid <;> simp [setPlace, findPlace, h, ih]

theorem findFlag_setFlag_self (m : List (Nat × Bool)) (pid : Nat) (b : Bool) :
    findFlag (setFlag m pid b) pid = b := by
  induction m with
  | nil => simp [setFlag, findFlag]
  | cons kv rest ih =>
    obtain ⟨k, v⟩ := kv
    by_cases h : k = pid <;> simp [setFlag, findFlag, h, ih]

theorem issue_time_lower (last now : Nat) :
    last + REQUEST_COOLDOWN ≤ issue_time last now := by
  unfold issue_time REQUEST_COOLDOWN
  split <;> omega

theorem fetch_issueTime (c : Cache) (pid : Nat) (cur : Option Nat) (ex : Bool)
    (now : Nat) (o : FetchOutcome) (d : Nat) :
    (fetch_from_roblox c pid cur ex now o d).issueTime =
      issue_time c.last_request now := by
  cases o <;> rfl

theorem fetch_last_request (c : Cache) (pid : Nat) (cur : Option Nat)
    (ex : Bool) (now : Nat) (o : FetchOutcome) (d : Nat)
    (h : o ≠ FetchOutcome.requestException) :
    (fetch_from_roblox c pid cur ex now o d).cache.last_request =
      (fetch_from_roblox c pid cur ex now o d).issueTime + d := by
  cases o <;> first | rfl | exact absurd rfl h

/-! ## C2: rate-limit cooldown -/

/-- C2 counterexample: a fetch receives HTTP 429 at time 100, yet a fetch for
a different key issued 10 time units later (well inside the claimed 60-unit
cooldown) does not fail with a rate-limit result - it goes through to the
network and returns the upstream page.  No cooldown state exists in the code:
a 429 only updates `last_request` like any other response. -/
theorem fetch_after_429_cex :
    (fetch_from_roblox { servers := [], last_request := 0 } 123 none false 100
        FetchOutcome.rateLimited 0).result = FetchResult.rate_limited 60 ∧
    (fetch_from_roblox
        (fetch_from_roblox { servers := [], last_request := 0 } 123 none false
          100 FetchOutcome.rateLimited 0).cache 456 none false 110
        (FetchOutcome.success [] none) 0).result = FetchResult.ok [] none ∧
    FetchResult.ok ([] : List ServerRecord) none ≠
      FetchResult.rate_limited 60 := by
  refine ⟨rfl, rfl, by decide⟩

/-- C2 amended: receiving HTTP 429 records no cooldown state at all.  The
only process-wide throttle state is `last_request`, which the 429 response
updates to its arrival time like any other response; a subsequent upstream
call for any key proceeds to issue its network request (returning whatever
the upstream answers) delayed only by the fixed `REQUEST_COOLDOWN` spacing,
never short-circuited with a rate-limit failure. -/
theorem fetch_after_429_no_cooldown (c : Cache) (pid1 : Nat)
    (cur1 : Option Nat) (ex1 : Bool) (now1 d1 : Nat) (pid2 : Nat)
    (cur2 : Option Nat) (ex2 : Bool) (now2 d2 : Nat)
    (recs : List ServerRecord) (nc : Option Nat) :
    (fetch_from_roblox
        (fetch_from_roblox c pid1 cur1 ex1 now1 FetchOutcome.rateLimited
          d1).cache pid2 cur2 ex2 now2 (FetchOutcome.success recs nc)
        d2).result = FetchResult.ok recs nc ∧
    (fetch_from_roblox c pid1 cur1 ex1 now1 FetchOutcome.rateLimited
        d1).cache.last_request = issue_time c.last_request now1 + d1 ∧
    (fetch_from_roblox c pid1 cur1 ex1 now1 FetchOutcome.rateLimited
          d1).cache.last_request + REQUEST_COOLDOWN ≤
      (fetch_from_roblox
          (fetch_from_roblox c pid1 cur1 ex1 now1 FetchOutcome.rateLimited
            d1).cache pid2 cur2 ex2 now2 (FetchOutcome.success recs nc)
          d2).issueTime := by
  refine ⟨rfl, rfl, ?_⟩
  rw [fetch_issueTime]
  exact issue_time_lower _ _

/-! ## C8: minimum spacing between consecutive upstream calls -/

/-- C8: for two consecutive upstream call attempts (any keys, any outcomes),
the earlier attempt records `last_request` as its response-arrival time, and
the later attempt's request is issued no earlier than that recorded time plus
`REQUEST_COOLDOWN` - hence also at least `REQUEST_COOLDOWN` after the earlier
request went out.  (The hypothesis excludes the transport-exception path, on
which the code records no `last_request` at all.) -/
theorem consecutive_fetch_spacing (c : Cache) (pid1 : Nat) (cur1 : Option Nat)
    (ex1 : Bool) (now1 : Nat) (o1 : FetchOutcome) (d1 : Nat) (pid2 : Nat)
    (cur2 : Option Nat) (ex2 : Bool) (now2 : Nat) (o2 : FetchOutcome)
    (d2 : Nat) (h : o1 ≠ FetchOutcome.requestException) :
    (fetch_from_roblox c pid1 cur1 ex1 now1 o1 d1).cache.last_request =
      (fetch_from_roblox c pid1 cur1 ex1 now1 o1 d1).issueTime + d1 ∧
    (fetch_from_roblox c pid1 cur1 ex1 now1 o1 d1).cache.last_request +
        REQUEST_COOLDOWN ≤
      (fetch_from_roblox (fetch_from_roblox c pid1 cur1 ex1 now1 o1 d1).cache
          pid2 cur2 ex2 now2 o2 d2).issueTime ∧
    (fetch_from_roblox c pid1 cur1 ex1 now1 o1 d1).issueTime +
        REQUEST_COOLDOWN ≤
      (fetch_from_roblox (fetch_from_roblox c pid1 cur1 ex1 now1 o1 d1).cache
          pid2 cur2 ex2 now2 o2 d2).issueTime := by
  have h1 := fetch_last_request c pid1 cur1 ex1 now1 o1 d1 h
  have h2 := fetch_issueTime (fetch_from_roblox c pid1 cur1 ex1 now1 o1 d1).cache
    pid2 cur2 ex2 now2 o2 d2
  have h3 := issue_time_lower
    (fetch_from_roblox c pid1 cur1 ex1 now1 o1 d1).cache.last_request now2
  refine ⟨h1, ?_, ?_⟩ <;> (rw [h2]; omega)

/-- C8 witness: the spacing theorem applied at a concrete input - a cold
cache, two back-to-back successful fetches at times 100 and 100. -/
theorem consecutive_fetch_spacing_witness :
    FetchOutcome.success ([] : List ServerRecord) none ≠
      FetchOutcome.requestException ∧
    ((fetch_from_roblox { servers := [], last_request := 0 } 1 none false 100
        (FetchOutcome.success [] none) 0).cache.last_request =
      (fetch_from_roblox { servers := [], last_request := 0 } 1 none false 100
        (FetchOutcome.success [] none) 0).issueTime + 0 ∧
    (fetch_from_roblox { servers := [], last_request := 0 } 1 none false 100
        (FetchOutcome.success [] none) 0).cache.last_request +
        REQUEST_COOLDOWN ≤
      (fetch_from_roblox (fetch_from_roblox { servers := [], last_request := 0 }
          1 none false 100 (FetchOutcome.success [] none) 0).cache 2 none false
          100 (FetchOutcome.success [] none) 0).issueTime ∧
    (fetch_from_roblox { servers := [], last_request := 0 } 1 none false 100
        (FetchOutcome.success [] none) 0).issueTime + REQUEST_COOLDOWN ≤
      (fetch_from_roblox (fetch_from_roblox { servers := [], last_request := 0 }
          1 none false 100 (FetchOutcome.success [] none) 0).cache 2 none false
          100 (FetchOutcome.success [] none) 0).issueTime) :=
  ⟨by decide, consecutive_fetch_spacing { servers := [], last_request := 0 } 1
    none false 100 (FetchOutcome.success [] none) 0 2 none false 100
    (FetchOutcome.success [] none) 0 (by decide)⟩

/-! ## C5: single-flight refill guard -/

/-- C5: the single-flight guard of `background_refill_cache`.  Starting a
refill for a key whose `fetch_in_progress` flag is set is a no-op (the whole
state, in particular that key's pool, is untouched); starting one for a key
whose flag is clear always ends with the flag clear again (the `try/finally`
release) on every modelled exit path of the run. -/
theorem background_refill_single_flight (g : GlobalState) (pid : Nat)
    (ex : Bool) (now : Nat) (outs : List FetchOutcome) :
    (findFlag g.fetch_in_progress pid = true →
      background_refill_cache g pid ex now outs = g) ∧
    (findFlag g.fetch_in_progress pid = false →
      findFlag (background_refill_cache g pid ex now outs).fetch_in_progress
        pid = false) := by
  constructor
  · intro h
    simp [background_refill_cache, h]
  · intro h
    simp [background_refill_cache, h, findFlag_setFlag_self]

/-- C5 witness: the guard theorem applied at concrete states - one with the
flag set for key 5 (the call is a no-op), one with no flag set (the call
leaves the flag clear). -/
theorem background_refill_single_flight_witness :
    (background_refill_cache
        { cache := { servers := [], last_request := 0 },
          fetch_in_progress := [(5, true)] } 5 false 0 [] =
      { cache := { servers := [], last_request := 0 },
        fetch_in_progress := [(5, true)] }) ∧
    (findFlag (background_refill_cache
        { cache := { servers := [], last_request := 0 },
          fetch_in_progress := [] } 5 false 0 []).fetch_in_progress 5 =
      false) :=
  ⟨(background_refill_single_flight
      { cache := { servers := [], last_request := 0 },
        fetch_in_progress := [(5, true)] } 5 false 0 []).1 (by decide),
   (background_refill_single_flight
      { cache := { servers := [], last_request := 0 },
        fetch_in_progress := [] } 5 false 0 []).2 (by decide)⟩

theorem update_cache_eq (c : Cache) (pid : Nat) (servers : List ServerRecord)
    (cur : Option Nat) (now : Nat) :
    update_cache c pid servers cur now =
      ({ c with
          servers := setPlace c.servers pid
            (PlaceCache.mk
              (if TARGET_CACHE_SIZE <
                  ((poolOrDefault c pid now).servers ++
                    new_servers (poolOrDefault c pid now).servers
                      servers).length then
                ((poolOrDefault c pid now).servers ++
                  new_servers (poolOrDefault c pid now).servers servers).take
                  TARGET_CACHE_SIZE
              else
                (poolOrDefault c pid now).servers ++
                  new_servers (poolOrDefault c pid now).servers servers)
              cur now) },
       (new_servers (poolOrDefault c pid now).servers servers).length) := rfl

theorem update_cache_members (c : Cache) (pid : Nat)
    (servers : List ServerRecord) (cur : Option Nat) (now : Nat) :
    poolMembers (update_cache c pid servers cur now).1 pid =
      if TARGET_CACHE_SIZE <
          ((poolOrDefault c pid now).servers ++
            new_servers (poolOrDefault c pid now).servers servers).length then
        ((poolOrDefault c pid now).servers ++
          new_servers (poolOrDefault c pid now).servers servers).take
          TARGET_CACHE_SIZE
      else
        (poolOrDefault c pid now).servers ++
          new_servers (poolOrDefault c pid now).servers servers := by
  rw [update_cache_eq]
  simp [poolMembers, findPlace_setPlace_self]

theorem update_cache_count (c : Cache) (pid : Nat)
    (servers : List ServerRecord) (cur : Option Nat) (now : Nat) :
    (update_cache c pid servers cur now).2 =
      (new_servers (poolOrDefault c pid now).servers servers).length := rfl

theorem update_cache_timestamp (c : Cache) (pid : Nat)
    (servers : List ServerRecord) (cur : Option Nat) (now : Nat) :
    poolTimestamp (update_cache c pid servers cur now).1 pid = now := by
  rw [update_cache_eq]
  simp [poolTimestamp, findPlace_setPlace_self]

theorem id_mem_after_merge (ex servers : List ServerRecord) (s : ServerRecord)
    (hs : s ∈ servers) :
    s.id ∈ (ex ++ new_servers ex servers).map ServerRecord.id := by
  rw [List.map_append, List.mem_append]
  by_cases h : s.id ∈ ex.map ServerRecord.id
  · exact Or.inl h
  · refine Or.inr (List.mem_map.mpr ⟨s, ?_, rfl⟩)
    show s ∈ servers.filter
      (fun s => !decide (s.id ∈ ex.map ServerRecord.id))
    rw [List.mem_filter]
    exact ⟨hs, by simp [h]⟩

theorem new_servers_eq_nil (members servers : List ServerRecord)
    (h : ∀ s ∈ servers, s.id ∈ members.map ServerRecord.id) :
    new_servers members servers = [] := by
  show servers.filter
    (fun s => !decide (s.id ∈ members.map ServerRecord.id)) = []
  apply List.filter_eq_nil_iff.mpr
  intro s hs
  simp only [Bool.not_eq_true', decide_eq_false_iff_not, not_not]
  exact h s hs

theorem update_cache_all_present (c : Cache) (pid : Nat)
    (servers : List ServerRecord) (cur : Option Nat) (now : Nat)
    (hids : ∀ s ∈ servers,
      s.id ∈ (poolOrDefault c pid now).servers.map ServerRecord.id)
    (hlen : (poolOrDefault c pid now).servers.length ≤ TARGET_CACHE_SIZE) :
    (update_cache c pid servers cur now).2 = 0 ∧
    poolMembers (update_cache c pid servers cur now).1 pid =
      (poolOrDefault c pid now).servers := by
  have hns := new_servers_eq_nil (poolOrDefault c pid now).servers servers hids
  constructor
  · rw [update_cache_count, hns]
    rfl
  · rw [update_cache_members, hns, List.append_nil, if_neg (by omega)]

/-! ## C1: no fullness partition in the merge -/

/-- C1 counterexample: the code performs no fullness classification and no
joinable-before-full reordering.  The batch `[full, joinable]` (under the
specified heuristic, whose four boundary examples are pinned here: 7/8 full,
6/8 joinable, 89/100 joinable, 90/100 full) survives deduplication entirely
(`addedCount = 2`) and is appended to the pool exactly in batch order, so a
full record precedes a joinable one, refuting the claimed ordering. -/
theorem update_cache_no_partition_cex :
    spec_is_full { id := 10, playing := 7, maxPlayers := 8 } = true ∧
    spec_is_full { id := 11, playing := 6, maxPlayers := 8 } = false ∧
    spec_is_full { id := 12, playing := 89, maxPlayers := 100 } = false ∧
    spec_is_full { id := 13, playing := 90, maxPlayers := 100 } = true ∧
    (update_cache { servers := [], last_request := 0 } 123
        [{ id := 1, playing := 95, maxPlayers := 100 },
         { id := 2, playing := 10, maxPlayers := 100 }] none 0).2 = 2 ∧
    poolMembers (update_cache { servers := [], last_request := 0 } 123
        [{ id := 1, playing := 95, maxPlayers := 100 },
         { id := 2, playing := 10, maxPlayers := 100 }] none 0).1 123 =
      [{ id := 1, playing := 95, maxPlayers := 100 },
       { id := 2, playing := 10, maxPlayers := 100 }] ∧
    spec_joinable_before_full
      (poolMembers (update_cache { servers := [], last_request := 0 } 123
        [{ id := 1, playing := 95, maxPlayers := 100 },
         { id := 2, playing := 10, maxPlayers := 100 }] none 0).1 123) =
      false := by
  decide

/-- C1 (amended): the merge classifies nothing.  Each record surviving
deduplication is appended to the pool's members in its original batch order
(the appended block is a sublist of the batch), with no joinable/full
partition; full and joinable records are interleaved exactly as upstream
sent them.  (Hypothesis: the merge does not overflow the capacity bound, so
truncation does not interfere.) -/
theorem update_cache_append_order (c : Cache) (pid : Nat)
    (servers : List ServerRecord) (cur : Option Nat) (now : Nat)
    (h : (poolOrDefault c pid now).servers.length +
         (new_servers (poolOrDefault c pid now).servers servers).length ≤
         TARGET_CACHE_SIZE) :
    poolMembers (update_cache c pid servers cur now).1 pid =
      (poolOrDefault c pid now).servers ++
        new_servers (poolOrDefault c pid now).servers servers ∧
    List.Sublist (new_servers (poolOrDefault c pid now).servers servers)
      servers := by
  constructor
  · rw [update_cache_members, if_neg (by rw [List.length_append]; omega)]
  · exact List.filter_sublist servers

/-- C1 amended witness: the append-order theorem at a concrete input - an
empty pool and the two-record batch `[full, joinable]`. -/
theorem update_cache_append_order_witness :
    ((poolOrDefault { servers := [], last_request := 0 } 123 0).servers.length +
      (new_servers
        (poolOrDefault { servers := [], last_request := 0 } 123 0).servers
        [{ id := 1, playing := 95, maxPlayers := 100 },
         { id := 2, playing := 10, maxPlayers := 100 }]).length ≤
      TARGET_CACHE_SIZE) ∧
    (poolMembers (update_cache { servers := [], last_request := 0 } 123
        [{ id := 1, playing := 95, maxPlayers := 100 },
         { id := 2, playing := 10, maxPlayers := 100 }] none 0).1 123 =
      (poolOrDefault { servers := [], last_request := 0 } 123 0).servers ++
        new_servers
          (poolOrDefault { servers := [], last_request := 0 } 123 0).servers
          [{ id := 1, playing := 95, maxPlayers := 100 },
           { id := 2, playing := 10, maxPlayers := 100 }] ∧
    List.Sublist
      (new_servers
        (poolOrDefault { servers := [], last_request := 0 } 123 0).servers
        [{ id := 1, playing := 95, maxPlayers := 100 },
         { id := 2, playing := 10, maxPlayers := 100 }])
      [{ id := 1, playing := 95, maxPlayers := 100 },
       { id := 2, playing := 10, maxPlayers := 100 }]) :=
  ⟨by decide,
   update_cache_append_order { servers := [], last_request := 0 } 123
     [{ id := 1, playing := 95, maxPlayers := 100 },
      { id := 2, playing := 10, maxPlayers := 100 }] none 0 (by decide)⟩

/-! ## C3: merge idempotence and the returned count -/

set_option maxRecDepth 100000 in
/-- C3 counterexample: dedup-idempotence fails when the first merge
overflows the capacity bound.  With a full pool of 500 records (ids 0-499),
merging the one-record batch `[id 500]` appends it and immediately truncates
it away (`addedCount = 1`); merging the identical batch a second time
appends it again: `addedCount` is 1, not 0, on the second merge (the pool
size stays 500, so only the claimed count is wrong). -/
theorem update_cache_remerge_cex :
    (update_cache bigCache 7 [{ id := 500, playing := 0, maxPlayers := 8 }]
        none 10).2 = 1 ∧
    (update_cache (update_cache bigCache 7
        [{ id := 500, playing := 0, maxPlayers := 8 }] none 10).1 7
        [{ id := 500, playing := 0, maxPlayers := 8 }] none 20).2 = 1 ∧
    poolSize (update_cache (update_cache bigCache 7
        [{ id := 500, playing := 0, maxPlayers := 8 }] none 10).1 7
        [{ id := 500, playing := 0, maxPlayers := 8 }] none 20).1 7 = 500 := by
  decide

/-- C3 (amended): `merge` always returns exactly the number of records
appended after deduplication against the pool's current member ids (that is
what `update_cache` computes), and whenever the first merge does not
overflow the capacity bound - so no truncation removes freshly appended
records - merging the identical batch a second time yields `addedCount = 0`
and leaves the pool's members (hence its size) unchanged. -/
theorem update_cache_remerge_added_zero (c : Cache) (pid : Nat)
    (servers : List ServerRecord) (cur1 cur2 : Option Nat) (now1 now2 : Nat)
    (h : (poolOrDefault c pid now1).servers.length +
         (new_servers (poolOrDefault c pid now1).servers servers).length ≤
         TARGET_CACHE_SIZE) :
    (update_cache c pid servers cur1 now1).2 =
      (new_servers (poolOrDefault c pid now1).servers servers).length ∧
    (update_cache (update_cache c pid servers cur1 now1).1 pid servers cur2
        now2).2 = 0 ∧
    poolMembers (update_cache (update_cache c pid servers cur1 now1).1 pid
        servers cur2 now2).1 pid =
      poolMembers (update_cache c pid servers cur1 now1).1 pid := by
  have hfind : findPlace (update_cache c pid servers cur1 now1).1.servers pid =
      some { servers := (poolOrDefault c pid now1).servers ++
               new_servers (poolOrDefault c pid now1).servers servers,
             cursor := cur1, timestamp := now1 } := by
    show findPlace (setPlace c.servers pid
      (PlaceCache.mk
        (if TARGET_CACHE_SIZE <
            ((poolOrDefault c pid now1).servers ++
              new_servers (poolOrDefault c pid now1).servers servers).length
          then
            ((poolOrDefault c pid now1).servers ++
              new_servers (poolOrDefault c pid now1).servers servers).take
              TARGET_CACHE_SIZE
          else
            (poolOrDefault c pid now1).servers ++
              new_servers (poolOrDefault c pid now1).servers servers)
        cur1 now1)) pid = _
    rw [findPlace_setPlace_self, if_neg (by rw [List.length_append]; omega)]
  have hpool1 : poolOrDefault (update_cache c pid servers cur1 now1).1 pid
      now2 =
      { servers := (poolOrDefault c pid now1).servers ++
          new_servers (poolOrDefault c pid now1).servers servers,
        cursor := cur1, timestamp := now1 } := by
    show (findPlace (update_cache c pid servers cur1 now1).1.servers pid).getD
      { servers := [], cursor := none, timestamp := now2 } = _
    rw [hfind, Option.getD_some]
  have h1 : poolMembers (update_cache c pid servers cur1 now1).1 pid =
      (poolOrDefault c pid now1).servers ++
        new_servers (poolOrDefault c pid now1).servers servers := by
    rw [update_cache_members, if_neg (by rw [List.length_append]; omega)]
  have hids : ∀ s ∈ servers, s.id ∈
      (poolOrDefault (update_cache c pid servers cur1 now1).1 pid
        now2).servers.map ServerRecord.id := by
    rw [hpool1]
    intro s hs
    exact id_mem_after_merge (poolOrDefault c pid now1).servers servers s hs
  have hlen : (poolOrDefault (update_cache c pid servers cur1 now1).1 pid
      now2).servers.length ≤ TARGET_CACHE_SIZE := by
    rw [hpool1]
    simp only [List.length_append]
    omega
  have hall := update_cache_all_present
    (update_cache c pid servers cur1 now1).1 pid servers cur2 now2 hids hlen
  refine ⟨rfl, hall.1, ?_⟩
  rw [hall.2, hpool1, h1]

/-- C3 amended witness: the no-overflow remerge theorem at a concrete input -
an empty pool and a one-record batch, merged twice. -/
theorem update_cache_remerge_added_zero_witness :
    ((poolOrDefault { servers := [], last_request := 0 } 7 5).servers.length +
      (new_servers
        (poolOrDefault { servers := [], last_request := 0 } 7 5).servers
        [{ id := 1, playing := 2, maxPlayers := 8 }]).length ≤
      TARGET_CACHE_SIZE) ∧
    ((update_cache { servers := [], last_request := 0 } 7
        [{ id := 1, playing := 2, maxPlayers := 8 }] none 5).2 =
      (new_servers
        (poolOrDefault { servers := [], last_request := 0 } 7 5).servers
        [{ id := 1, playing := 2, maxPlayers := 8 }]).length ∧
    (update_cache (update_cache { servers := [], last_request := 0 } 7
        [{ id := 1, playing := 2, maxPlayers := 8 }] none 5).1 7
        [{ id := 1, playing := 2, maxPlayers := 8 }] none 6).2 = 0 ∧
    poolMembers (update_cache (update_cache { servers := [], last_request := 0 }
        7 [{ id := 1, playing := 2, maxPlayers := 8 }] none 5).1 7
        [{ id := 1, playing := 2, maxPlayers := 8 }] none 6).1 7 =
      poolMembers (update_cache { servers := [], last_request := 0 } 7
        [{ id := 1, playing := 2, maxPlayers := 8 }] none 5).1 7) :=
  ⟨by decide,
   update_cache_remerge_added_zero { servers := [], last_request := 0 } 7
     [{ id := 1, playing := 2, maxPlayers := 8 }] none none 5 6 (by decide)⟩

/-! ## C4: pool invariants under merge -/

/-- C4 counterexample: the id-uniqueness invariant is not preserved for every
batch.  The dedup filter compares batch records only against the ids already
in the pool, not against each other, so a batch containing two records with
the same id (here id 1 twice) puts both into `members`. -/
theorem update_cache_dup_batch_cex :
    (poolMembers (update_cache { servers := [], last_request := 0 } 9
        [{ id := 1, playing := 0, maxPlayers := 8 },
         { id := 1, playing := 5, maxPlayers := 8 }] none 5).1 9).map
      ServerRecord.id = [1, 1] ∧
    ¬ ((poolMembers (update_cache { servers := [], last_request := 0 } 9
        [{ id := 1, playing := 0, maxPlayers := 8 },
         { id := 1, playing := 5, maxPlayers := 8 }] none 5).1 9).map
      ServerRecord.id).Nodup := by
  decide

/-- C4 (amended): provided the merged batch itself contains no two records
with the same id, every merge preserves the pool invariants: member ids stay
pairwise distinct, the member count is at most `TARGET_CACHE_SIZE` right
after the merge (excess removed by keeping the first `TARGET_CACHE_SIZE`
entries), and - the clock being monotone, `now` at least the stored
timestamp - `lastRefreshedAt` never decreases. -/
theorem update_cache_invariants (c : Cache) (pid : Nat)
    (servers : List ServerRecord) (cur : Option Nat) (now : Nat)
    (hbatch : (servers.map ServerRecord.id).Nodup)
    (hpool : ((poolOrDefault c pid now).servers.map ServerRecord.id).Nodup)
    (hts : (poolOrDefault c pid now).timestamp ≤ now) :
    ((poolMembers (update_cache c pid servers cur now).1 pid).map
      ServerRecord.id).Nodup ∧
    poolSize (update_cache c pid servers cur now).1 pid ≤ TARGET_CACHE_SIZE ∧
    (poolOrDefault c pid now).timestamp ≤
      poolTimestamp (update_cache c pid servers cur now).1 pid := by
  have hns : ((new_servers (poolOrDefault c pid now).servers servers).map
      ServerRecord.id).Nodup :=
    List.Nodup.sublist
      (List.Sublist.map ServerRecord.id (List.filter_sublist servers)) hbatch
  have hdisj : ((poolOrDefault c pid now).servers.map ServerRecord.id).Disjoint
      ((new_servers (poolOrDefault c pid now).servers servers).map
        ServerRecord.id) := by
    intro a ha hb
    obtain ⟨s, hsmem, hsid⟩ := List.mem_map.mp hb
    have hpred := (List.mem_filter.mp hsmem).2
    simp only [Bool.not_eq_true', decide_eq_false_iff_not] at hpred
    exact hpred (hsid ▸ ha)
  have happ : (((poolOrDefault c pid now).servers ++
      new_servers (poolOrDefault c pid now).servers servers).map
      ServerRecord.id).Nodup := by
    rw [List.map_append]
    exact List.Nodup.append hpool hns hdisj
  refine ⟨?_, ?_, ?_⟩
  · rw [update_cache_members]
    split
    · rw [List.map_take]
      exact List.Nodup.sublist (List.take_sublist _ _) happ
    · exact happ
  · show (poolMembers (update_cache c pid servers cur now).1 pid).length ≤
      TARGET_CACHE_SIZE
    rw [update_cache_members]
    split
    · rw [List.length_take]
      omega
    · omega
  · rw [update_cache_timestamp]
    exact hts

/-- C4 amended witness: the invariant theorem at a concrete input - empty
pool, a duplicate-free two-record batch, clock at 5. -/
theorem update_cache_invariants_witness :
    (([{ id := 1, playing := 0, maxPlayers := 8 },
       { id := 2, playing := 0, maxPlayers := 8 }] :
        List ServerRecord).map ServerRecord.id).Nodup ∧
    ((poolOrDefault { servers := [], last_request := 0 } 9 5).servers.map
      ServerRecord.id).Nodup ∧
    (poolOrDefault { servers := [], last_request := 0 } 9 5).timestamp ≤ 5 ∧
    (((poolMembers (update_cache { servers := [], last_request := 0 } 9
        [{ id := 1, playing := 0, maxPlayers := 8 },
         { id := 2, playing := 0, maxPlayers := 8 }] none 5).1 9).map
      ServerRecord.id).Nodup ∧
    poolSize (update_cache { servers := [], last_request := 0 } 9
        [{ id := 1, playing := 0, maxPlayers := 8 },
         { id := 2, playing := 0, maxPlayers := 8 }] none 5).1 9 ≤
      TARGET_CACHE_SIZE ∧
    (poolOrDefault { servers := [], last_request := 0 } 9 5).timestamp ≤
      poolTimestamp (update_cache { servers := [], last_request := 0 } 9
        [{ id := 1, playing := 0, maxPlayers := 8 },
         { id := 2, playing := 0, maxPlayers := 8 }] none 5).1 9) :=
  ⟨by decide, by decide, by decide,
   update_cache_invariants { servers := [], last_request := 0 } 9
     [{ id := 1, playing := 0, maxPlayers := 8 },
      { id := 2, playing := 0, maxPlayers := 8 }] none 5 (by decide)
     (by decide) (by decide)⟩

/-! ## C9: the refill loop's attempt bound -/

theorem refill_loop_count_le_fuel (pid : Nat) (ex : Bool) (now : Nat) :
    ∀ (fuel : Nat) (c : Cache) (cur : Option Nat)
      (outs : List FetchOutcome),
      (refill_loop pid ex now fuel c cur outs).2 ≤ fuel := by
  intro fuel
  induction fuel with
  | zero =>
    intro c cur outs
    exact Nat.le_refl 0
  | succ n ih =>
    intro c cur outs
    simp only [refill_loop]
    split
    · exact Nat.zero_le _
    · split
      · split
        · exact Nat.succ_le_succ (Nat.zero_le n)
        · split
          · split
            · exact Nat.succ_le_succ (ih _ _ _)
            · exact Nat.succ_le_succ (Nat.zero_le n)
          · split
            · exact Nat.succ_le_succ (Nat.zero_le n)
            · exact Nat.succ_le_succ (ih _ _ _)
      · exact Nat.succ_le_succ (Nat.zero_le n)

/-- C9: every refill run terminates in a stopping state after at most
`max_attempts` (5) fetch iterations, whatever the upstream answers; and when
the pool already holds `TARGET_CACHE_SIZE` records the run stops at once
with no fetch and no state change (goal met). -/
theorem refill_run_attempt_bound (pid : Nat) (ex : Bool) (now : Nat)
    (c : Cache) (cur : Option Nat) (outs : List FetchOutcome) :
    (refill_loop pid ex now max_attempts c cur outs).2 ≤ max_attempts ∧
    (TARGET_CACHE_SIZE ≤ poolSize c pid →
      refill_loop pid ex now max_attempts c cur outs = (c, 0)) := by
  constructor
  · exact refill_loop_count_le_fuel pid ex now max_attempts c cur outs
  · intro h
    show refill_loop pid ex now (4 + 1) c cur outs = (c, 0)
    simp only [refill_loop]
    rw [if_pos h]

set_option maxRecDepth 100000 in
/-- C9 witness: the attempt-bound theorem at a concrete input - a cache
already holding a full pool for key 7, so the run stops with zero fetches. -/
theorem refill_run_attempt_bound_witness :
    ((refill_loop 7 false 0 max_attempts bigCache none []).2 ≤ max_attempts ∧
    (TARGET_CACHE_SIZE ≤ poolSize bigCache 7 →
      refill_loop 7 false 0 max_attempts bigCache none [] = (bigCache, 0))) ∧
    TARGET_CACHE_SIZE ≤ poolSize bigCache 7 :=
  ⟨refill_run_attempt_bound 7 false 0 bigCache none [],
   by decide⟩

/-! ## C6: serving from a fresh cache -/

/-- C6: whenever the pool for a key exists with at least one member, is not
stale, and `forceRefresh` is false, `get_servers` answers from the cache: it
returns exactly the first `count` members (that is, `min(count, size)`
records), removes exactly those from the pool, reports
`remaining = previous size - returned count`, and triggers a background
refill exactly when the pre-drain size is below `MIN_CACHE_SIZE`. -/
theorem get_servers_cache_path (c : Cache) (pid : Nat) (ex : Bool)
    (count now : Nat) (outcome : FetchOutcome) (d : Nat) (pc : PlaceCache)
    (hfind : findPlace c.servers pid = some pc)
    (hne : pc.servers ≠ [])
    (hvalid : is_cache_valid c pid now = true) :
    get_servers c pid ex false count now outcome d =
      { result := GetResult.cacheHit (pc.servers.take count)
          (pc.servers.take count).length (pc.servers.drop count).length
          pc.timestamp,
        cache := { c with
          servers := setPlace c.servers pid
            { pc with servers := pc.servers.drop count } },
        refillTriggered := decide (pc.servers.length < MIN_CACHE_SIZE) } ∧
    (pc.servers.take count).length = min count pc.servers.length ∧
    (pc.servers.drop count).length = pc.servers.length - count := by
  have h0 : 0 < pc.servers.length := List.length_pos.mpr hne
  refine ⟨?_, ?_, ?_⟩
  · simp [get_servers, poolOrDefault, hfind, hvalid, h0]
  · rw [List.length_take]
  · rw [List.length_drop]

set_option maxRecDepth 1000000 in
/-- C6 witness: end-to-end scenario 2.  With 300 fresh records pre-loaded,
`count = 50` returns exactly 50 records, leaves 250 in the pool, and triggers
no refill; with 249 pre-loaded, the same call triggers a background refill. -/
theorem get_servers_cache_path_witness :
    (get_servers cache300 123 false false 50 1000
        (FetchOutcome.success [] none) 0).result =
      GetResult.cacheHit (pool300.take 50) 50 250 1000 ∧
    (get_servers cache300 123 false false 50 1000
        (FetchOutcome.success [] none) 0).refillTriggered = false ∧
    poolMembers (get_servers cache300 123 false false 50 1000
        (FetchOutcome.success [] none) 0).cache 123 = pool300.drop 50 ∧
    poolSize (get_servers cache300 123 false false 50 1000
        (FetchOutcome.success [] none) 0).cache 123 = 250 ∧
    (get_servers cache249 123 false false 50 1000
        (FetchOutcome.success [] none) 0).refillTriggered = true := by
  have h1 := get_servers_cache_path cache300 123 false 50 1000
    (FetchOutcome.success [] none) 0
    { servers := pool300, cursor := none, timestamp := 1000 } rfl
    (by decide) (by decide)
  have h2 := get_servers_cache_path cache249 123 false 50 1000
    (FetchOutcome.success [] none) 0
    { servers := pool249, cursor := none, timestamp := 1000 } rfl
    (by decide) (by decide)
  rw [h1.1, h2.1]
  decide

/-! ## C7: the synchronous upstream path -/

/-- C7 counterexample: on the upstream path the response is built from the
raw fetched page, not from the records that merge added.  The pool for key
123 already holds `rec1` and `forceRefresh` forces a synchronous fetch that
returns that same record: the merge adds 0 records, yet the response
contains `rec1` - and the pool still holds it too, so the returned record
was not taken from what was just added. -/
theorem get_servers_upstream_cex :
    (get_servers oneRecCache 123 false true 50 1000
        (FetchOutcome.success [rec1] none) 0).result =
      GetResult.fromUpstream [rec1] 1 none ∧
    (update_cache (fetch_from_roblox oneRecCache 123 none false 1000
        (FetchOutcome.success [rec1] none) 0).cache 123 [rec1] none
        1000).2 = 0 ∧
    poolMembers (get_servers oneRecCache 123 false true 50 1000
        (FetchOutcome.success [rec1] none) 0).cache 123 = [rec1] := by
  decide

/-- C7 (amended): whenever the cache-serving guard fails (pool empty, stale,
or `forceRefresh` set), `get_servers` performs exactly one synchronous
fetch-merge cycle - the fetched page is merged into the pool - and responds
with upstream source; but the records returned are the first `count` of the
raw fetched page, regardless of whether the merge added them (duplicates of
existing pool members are returned too, and nothing is drained). -/
theorem get_servers_upstream_path (c : Cache) (pid : Nat) (ex force : Bool)
    (count now : Nat) (recs : List ServerRecord) (cur : Option Nat) (d : Nat)
    (pc : PlaceCache)
    (hfind : findPlace c.servers pid = some pc)
    (hguard : (decide (0 < pc.servers.length) && is_cache_valid c pid now &&
      !force) = false) :
    (get_servers c pid ex force count now (FetchOutcome.success recs cur)
        d).result =
      GetResult.fromUpstream (recs.take count) (recs.take count).length cur ∧
    (get_servers c pid ex force count now (FetchOutcome.success recs cur)
        d).cache =
      (update_cache (fetch_from_roblox c pid pc.cursor ex now
          (FetchOutcome.success recs cur) d).cache pid recs cur now).1 := by
  constructor <;>
    simp [get_servers, poolOrDefault, hfind, hguard, fetch_from_roblox]

/-- C7 amended witness: the upstream-path theorem at a concrete input - a
present but empty pool for key 123 and a three-record page with `count = 2`. -/
theorem get_servers_upstream_path_witness :
    ((decide (0 < ([] : List ServerRecord).length) &&
      is_cache_valid emptyPoolCache 123 5000 && !false) = false) ∧
    ((get_servers emptyPoolCache 123 false false 2 5000
        (FetchOutcome.success [rec1, rec2, rec3] (some 9)) 0).result =
      GetResult.fromUpstream ([rec1, rec2, rec3].take 2)
        ([rec1, rec2, rec3].take 2).length (some 9) ∧
    (get_servers emptyPoolCache 123 false false 2 5000
        (FetchOutcome.success [rec1, rec2, rec3] (some 9)) 0).cache =
      (update_cache (fetch_from_roblox emptyPoolCache 123 none false 5000
          (FetchOutcome.success [rec1, rec2, rec3] (some 9)) 0).cache 123
        [rec1, rec2, rec3] (some 9) 5000).1) :=
  ⟨by decide,
   get_servers_upstream_path emptyPoolCache 123 false false 2 5000
     [rec1, rec2, rec3] (some 9) 0
     { servers := [], cursor := none, timestamp := 0 } rfl (by decide)⟩

/-! ## C10: a drained record can re-enter the pool -/

/-- C10: deduplication consults only the ids currently in the pool.  The
pool for key 123 holds `rec1` and `rec2`; a cache-path request with
`count = 1` drains `rec1` (the pool becomes `[rec2]`); a later merge whose
batch contains `rec1` appends it again and counts it in `addedCount` (which
is 1), so the already-handed-out record re-enters the pool and can be served
a second time.  Id-uniqueness holds within the pool at each instant, not
over its lifetime. -/
theorem drained_record_reenters :
    (get_servers twoRecCache 123 false false 1 1000
        (FetchOutcome.success [] none) 0).result =
      GetResult.cacheHit [rec1] 1 1 1000 ∧
    poolMembers (get_servers twoRecCache 123 false false 1 1000
        (FetchOutcome.success [] none) 0).cache 123 = [rec2] ∧
    (update_cache (get_servers twoRecCache 123 false false 1 1000
        (FetchOutcome.success [] none) 0).cache 123 [rec1] none 1001).2 = 1 ∧
    poolMembers (update_cache (get_servers twoRecCache 123 false false 1 1000
        (FetchOutcome.success [] none) 0).cache 123 [rec1] none 1001).1 123 =
      [rec2, rec1] := by
  decide
